import Mathlib

/-!
Verification of the jira_sync repository: a shallow embedding of the
synchronization core (the `SyncManager` reconciliation engine in
`src/jira_sync/sync_mgr.py`, the JIRA wrapper in
`src/jira_sync/jira_wrapper.py`, and the forge repository abstraction in
`src/jira_sync/repositories/`), together with theorems settling the frozen
claims about it.

Conventions of the embedding:
* Python dictionaries with string keys are `List (String × V)` association
  lists; Python `dict.get` is `dictGet`; the `|` dict-union operator is
  `dictUnion`.
* A value that Python may set to `None` is an `Option`.
* Calls that the code performs against the JIRA API are recorded as values of
  an explicit call type instead of being executed, so that "performs no
  mutating call" is a statement about a list of emitted calls.
-/

namespace JiraSync

/-- `dict.get k`: first value stored under key `k`, if any. -/
def dictGet {V : Type} (k : String) (l : List (String × V)) : Option V :=
  (l.find? (fun kv => kv.1 == k)).map (fun kv => kv.2)

/-- Status of a canonical forge issue; `IssueStatus` in
`src/jira_sync/repositories/base.py`. -/
inductive IssueStatus where
  | new
  | assigned
  | blocked
  | closed
deriving DecidableEq, Repr

/-- The data of the owning repository that the reconciliation engine reads
from `forge_issue.repository`: its name, its instance's name and its
username map (`usermap`). -/
structure RepoInfo where
  instanceName : String
  repoName : String
  usermap : List (String × String)
deriving DecidableEq, Repr

/-- Canonical forge issue; the `Issue` dataclass in
`src/jira_sync/repositories/base.py`. -/
structure Issue where
  repository : RepoInfo
  full_url : String
  title : String
  content : String
  assignee : Option String
  status : IssueStatus
  story_points : Int
deriving DecidableEq, Repr

/-- The parts of a JIRA user resource the code reads: `key`, `emailAddress`
(in `SyncManager.reconcile_jira_forge_issues`) and `name`
(in `JIRA.assign_to_issue`). -/
structure JiraUser where
  key : String
  name : String
  emailAddress : String
deriving DecidableEq, Repr

/-- The parts of a JIRA issue the code reads: its key, the name of its
current status, its labels, its assignee, the value of the configured
external-URL field (`none` when the field is missing or null) and the value
of the configured story-points field. -/
structure JiraIssue where
  key : String
  statusName : String
  labels : List String
  assignee : Option JiraUser
  externalUrl : Option String
  storyPoints : Int
deriving DecidableEq, Repr

/-- `StatusesConfig` from `src/jira_sync/config/model.py`: the forge-status →
JIRA-status-name map. -/
structure StatusesConfig where
  new : String
  assigned : String
  blocked : String
  closed : String
deriving DecidableEq, Repr

/-- `getattr(statuses, forge_issue.status.name)`. -/
def StatusesConfig.forStatus (s : StatusesConfig) : IssueStatus → String
  | .new => s.new
  | .assigned => s.assigned
  | .blocked => s.blocked
  | .closed => s.closed

/-- `list(statuses.model_dump().values())` — pydantic dumps fields in
declaration order (new, assigned, blocked, closed); computed as
`self._jira_status_values` in `SyncManager.__init__`. -/
def StatusesConfig.values (s : StatusesConfig) : List String :=
  [s.new, s.assigned, s.blocked, s.closed]

/-- The slice of `JiraConfig` that the synchronization core reads.
`story_points_field` keeps its Python representation: the empty string means
"not configured" (the code tests it for truthiness). -/
structure JiraConfig where
  label : String
  story_points_field : String
  statuses : StatusesConfig
deriving DecidableEq, Repr

/-- `JiraRunMode` from `src/jira_sync/jira_wrapper.py`. -/
inductive JiraRunMode where
  | READ_WRITE
  | READ_ONLY
  | DRY_RUN
deriving DecidableEq, Repr

/-- The pending-changes dictionary built by `JIRA.add_labels` /
`JIRA.add_story_points` and applied by `JIRA.update_issue`.  `labels` models
the "labels" key (the list of labels in its add-operations), `storyPoints`
models the story-points-field key (the value in its set-operation); a `none`
field is an absent key. -/
structure Changes where
  labels : Option (List String) := none
  storyPoints : Option Int := none
deriving DecidableEq, Repr

/-- The empty `changes` dictionary. -/
def Changes.empty : Changes := {}

/-- Python `not changes` on the changes dictionary. -/
def Changes.isEmpty (c : Changes) : Bool :=
  c.labels == none && c.storyPoints == none

/-- A call performed against the underlying `jira.client.JIRA` API. -/
inductive JiraApiCall where
  | createIssue (url : String) (labels : List String)
  | transitionIssue (issueKey : String) (status : String)
  | assignIssue (issueKey : String) (user : Option String)
  | updateIssue (issueKey : String) (changes : Changes)
deriving DecidableEq, Repr

/-- `JIRA.create_issue` (src/jira_sync/jira_wrapper.py): in any run mode
other than `READ_WRITE` it only logs and returns `None` without touching the
API.  Otherwise it issues the create call; `serverReply` stands for the
issue the server returns (`none` models a `JIRAError`, which the code
catches and turns into `None`). -/
def JIRA.create_issue (runMode : JiraRunMode) (url : String)
    (labels : List String) (serverReply : Option JiraIssue) :
    Option JiraIssue × List JiraApiCall :=
  if runMode ≠ JiraRunMode.READ_WRITE then
    (none, [])
  else
    (serverReply, [JiraApiCall.createIssue url labels])

/-- `JIRA.transition_issue`: returns without touching the API unless the run
mode is `READ_WRITE`; in `READ_WRITE` mode it transitions only when the
issue is not already at the requested status. -/
def JIRA.transition_issue (runMode : JiraRunMode) (issue : JiraIssue)
    (status : String) : List JiraApiCall :=
  if runMode ≠ JiraRunMode.READ_WRITE then
    []
  else if issue.statusName ≠ status then
    [JiraApiCall.transitionIssue issue.key status]
  else
    []

/-- `JIRA.assign_to_issue`: returns without touching the API unless the run
mode is `READ_WRITE`; in `READ_WRITE` mode it assigns only when the target
differs from `getattr(issue.fields.assignee, "name", None)`. -/
def JIRA.assign_to_issue (runMode : JiraRunMode) (issue : JiraIssue)
    (user : Option String) : List JiraApiCall :=
  if runMode ≠ JiraRunMode.READ_WRITE then
    []
  else if user ≠ issue.assignee.map (fun u => u.name) then
    [JiraApiCall.assignIssue issue.key user]
  else
    []

/-- `JIRA.add_labels`: pure accumulation into the changes dictionary — adds
an add-operation for each requested label not already on the issue, or
leaves the changes untouched when every label is present. -/
def JIRA.add_labels (issue : JiraIssue) (labels : List String)
    (changes : Changes) : Changes :=
  let labels_to_add := labels.filter (fun label => label ∉ issue.labels)
  if labels_to_add.isEmpty then
    changes
  else
    { changes with labels := some labels_to_add }

/-- `JIRA.add_story_points`: pure accumulation into the changes dictionary —
skips when no story-points field is configured, when the issue already holds
the requested value, or when the value is 0. -/
def JIRA.add_story_points (cfg : JiraConfig) (issue : JiraIssue)
    (story_points : Int) (changes : Changes) : Changes :=
  if cfg.story_points_field = "" then
    changes
  else if issue.storyPoints = story_points then
    changes
  else if story_points = 0 then
    changes
  else
    { changes with storyPoints := some story_points }

/-- `JIRA.update_issue`: returns without touching the API unless the run
mode is `READ_WRITE`; in `READ_WRITE` mode it applies the changes only when
the changes dictionary is non-empty. -/
def JIRA.update_issue (runMode : JiraRunMode) (issue : JiraIssue)
    (changes : Changes) : List JiraApiCall :=
  if runMode ≠ JiraRunMode.READ_WRITE then
    []
  else if changes.isEmpty then
    []
  else
    [JiraApiCall.updateIssue issue.key changes]

/-- A call the `SyncManager` makes on its JIRA wrapper (the mutating subset;
read-only calls are not recorded). -/
inductive SyncCall where
  | assignToIssue (issueKey : String) (user : Option String)
  | transitionIssue (issueKey : String) (status : String)
  | updateIssue (issueKey : String) (changes : Changes)
deriving DecidableEq, Repr

/-- `SyncManager.get_full_url_from_jira_issue`: reads the configured
external-URL field off the JIRA issue, `None` when missing. -/
def get_full_url_from_jira_issue (j : JiraIssue) : Option String :=
  j.externalUrl

/-- Python truthiness of an optional string (`None` and `""` are falsy). -/
def pyTruthy (s : Option String) : Bool :=
  match s with
  | none => false
  | some v => v ≠ ""

/-- `forge_jira_assignee` as computed at the top of
`SyncManager.reconcile_jira_forge_issues`:
`repository.usermap.get(assignee) if assignee else None`. -/
def forgeJiraAssignee (f : Issue) : Option String :=
  match f.assignee with
  | some a => dictGet a f.repository.usermap
  | none => none

/-- The assignee-change condition of `reconcile_jira_forge_issues`:
`bool(fa) is not bool(ja) or ja and fa and fa not in (ja.key, ja.emailAddress)`
(with Python truthiness for the mapped forge assignee string). -/
def assigneeChangeNeeded (j : JiraIssue) (fa : Option String) : Bool :=
  (pyTruthy fa ≠ j.assignee.isSome) ||
    (match j.assignee, fa with
     | some ju, some a => pyTruthy (some a) && decide (a ≠ ju.key ∧ a ≠ ju.emailAddress)
     | _, _ => false)

/-- The `"{instance_name}:{repo_name}"` label. -/
def repoLabel (r : RepoInfo) : String :=
  r.instanceName ++ ":" ++ r.repoName

/-- One iteration of the loop in `SyncManager.reconcile_jira_forge_issues`
for a matched pair, recording the wrapper calls it makes: possibly
`assign_to_issue`, possibly `transition_issue` (guarded: a forge status of
`new` does not transition a JIRA issue whose current status is not among the
configured status values), and always `update_issue` with the changes
accumulated by `add_labels` and `add_story_points`. -/
def reconcile_pair (cfg : JiraConfig) (j : JiraIssue) (f : Issue) :
    List SyncCall :=
  let fa := forgeJiraAssignee f
  let assignCalls :=
    if assigneeChangeNeeded j fa then [SyncCall.assignToIssue j.key fa] else []
  let jiraStatus := cfg.statuses.forStatus f.status
  let statusCalls :=
    if j.statusName = jiraStatus then
      []
    else if f.status = IssueStatus.new ∧ j.statusName ∉ cfg.statuses.values then
      []
    else
      [SyncCall.transitionIssue j.key jiraStatus]
  let changes :=
    JIRA.add_labels j [cfg.label, repoLabel f.repository] Changes.empty
  let changes := JIRA.add_story_points cfg j f.story_points changes
  assignCalls ++ statusCalls ++ [SyncCall.updateIssue j.key changes]

/-- `SyncManager.reconcile_jira_forge_issues` over a collection of matched
pairs: the concatenation of the wrapper calls made for each pair. -/
def reconcile_jira_forge_issues (cfg : JiraConfig)
    (pairs : List (JiraIssue × Issue)) : List SyncCall :=
  (pairs.map (fun p => reconcile_pair cfg p.1 p.2)).flatten

/-- Does this JIRA issue's external-URL field point at this forge issue?
The comparison `forge_issue.full_url == full_url` in
`SyncManager.match_jira_forge_issues` (a Python `str` is never equal to
`None`). -/
def urlMatches (j : JiraIssue) (f : Issue) : Bool :=
  decide (get_full_url_from_jira_issue j = some f.full_url)

/-- The loop of `SyncManager.match_jira_forge_issues`: for each JIRA issue
in turn, scan the pool of still-unmatched forge issues for the first one
whose `full_url` equals the JIRA issue's external URL; on a hit record the
pair and remove that forge issue from the pool, otherwise record the JIRA
issue as unmatched. -/
def match_go : List JiraIssue → List (JiraIssue × Issue) → List JiraIssue →
    List Issue → List (JiraIssue × Issue) × List JiraIssue × List Issue
  | [], matched, unmatchedJira, pool => (matched, unmatchedJira, pool)
  | j :: rest, matched, unmatchedJira, pool =>
    match pool.find? (fun f => urlMatches j f) with
    | some f =>
      match_go rest (matched ++ [(j, f)]) unmatchedJira
        (pool.eraseP (fun f => urlMatches j f))
    | none =>
      match_go rest matched (unmatchedJira ++ [j]) pool

/-- `SyncManager.match_jira_forge_issues`: returns the matched pairs, the
unmatched JIRA issues and the unmatched forge issues. -/
def match_jira_forge_issues (jiraIssues : List JiraIssue)
    (forgeIssues : List Issue) :
    List (JiraIssue × Issue) × List JiraIssue × List Issue :=
  match_go jiraIssues [] [] forgeIssues

/-- `SyncManager.close_jira_issues`: transitions every given JIRA issue to
the configured closed status (recorded as wrapper calls). -/
def close_jira_issues (cfg : JiraConfig) (jiraIssues : List JiraIssue) :
    List SyncCall :=
  jiraIssues.map (fun j => SyncCall.transitionIssue j.key cfg.statuses.closed)

/-- The close step of `SyncManager.sync_issues`: the calls made by
`close_jira_issues(unmatched_jira_issues)` where `unmatched_jira_issues` is
the second component returned by `match_jira_forge_issues`. -/
def sync_close_calls (cfg : JiraConfig) (openJiraIssues : List JiraIssue)
    (forgeIssues : List Issue) : List SyncCall :=
  close_jira_issues cfg (match_jira_forge_issues openJiraIssues forgeIssues).2.1

/-- Python `str.lower()`: lower-case each character. -/
def strToLower (s : String) : String :=
  String.mk (s.data.map Char.toLower)

/-- Raw Pagure API issue as read by `PagureRepository.normalize_issue`:
`full_url`, `title`, `content`, `assignee` (the `name` inside the assignee
object, `none` when the assignee is null), `status` and `tags`. -/
structure PagureApiIssue where
  full_url : String
  title : String
  content : String
  assignee : Option String
  status : String
  tags : List String
deriving DecidableEq, Repr

/-- Raw GitHub API issue as read by `GitHubRepository.normalize_issue`:
`html_url`, `title`, `body`, `assignee` (the `login` inside the assignee
object), `state` and the label names extracted from `labels`. -/
structure GitHubApiIssue where
  html_url : String
  title : String
  body : String
  assignee : Option String
  state : String
  labels : List String
deriving DecidableEq, Repr

/-- Raw GitLab API issue as read by `GitLabRepository.normalize_issue`:
`web_url`, `title`, `description`, `assignee` (the `username` inside the
assignee object), `state` and the label names extracted from `labels`. -/
structure GitLabApiIssue where
  web_url : String
  title : String
  description : String
  assignee : Option String
  state : String
  labels : List String
deriving DecidableEq, Repr

/-- Raw Forgejo API issue as read by `ForgejoRepository.normalize_issue`:
`html_url`, `title`, `body`, `assignee` (the `login` inside the assignee
object), `state` and the label names extracted from `labels`. -/
structure ForgejoApiIssue where
  html_url : String
  title : String
  body : String
  assignee : Option String
  state : String
  labels : List String
deriving DecidableEq, Repr

/-- The status-derivation block of `PagureRepository.normalize_issue`
(src/jira_sync/repositories/pagure.py, lines 57–75): `_status` is the
lower-cased `status` field; if it is not "closed", a configured (truthy)
blocked label found among the tags gives `blocked`, otherwise the presence
of an assignee decides between `assigned` and `new`; a closed `_status`
gives `closed`. -/
def pagure_issue_status (blocked_label : Option String)
    (api_result : PagureApiIssue) : IssueStatus :=
  let _status := strToLower api_result.status
  if _status ≠ "closed" then
    if pyTruthy blocked_label ∧
        blocked_label.getD "" ∈ api_result.tags then
      IssueStatus.blocked
    else
      if api_result.assignee.isNone then IssueStatus.new
      else IssueStatus.assigned
  else
    IssueStatus.closed

/-- The status-derivation block of `GitHubRepository.normalize_issue`
(src/jira_sync/repositories/github.py, lines 82–101), structurally identical
to the Pagure one but reading `state` and label names. -/
def github_issue_status (blocked_label : Option String)
    (api_result : GitHubApiIssue) : IssueStatus :=
  let _state := strToLower api_result.state
  if _state ≠ "closed" then
    if pyTruthy blocked_label ∧
        blocked_label.getD "" ∈ api_result.labels then
      IssueStatus.blocked
    else
      if api_result.assignee.isNone then IssueStatus.new
      else IssueStatus.assigned
  else
    IssueStatus.closed

/-- The status-derivation block of `GitLabRepository.normalize_issue`
(src/jira_sync/repositories/gitlab.py, lines 87–101), structurally identical
to the Pagure one but reading `state` and label names. -/
def gitlab_issue_status (blocked_label : Option String)
    (api_result : GitLabApiIssue) : IssueStatus :=
  let _state := strToLower api_result.state
  if _state ≠ "closed" then
    if pyTruthy blocked_label ∧
        blocked_label.getD "" ∈ api_result.labels then
      IssueStatus.blocked
    else
      if api_result.assignee.isNone then IssueStatus.new
      else IssueStatus.assigned
  else
    IssueStatus.closed

/-- The status-derivation block of `ForgejoRepository.normalize_issue`
(src/jira_sync/repositories/forgejo.py, lines 85–99), structurally identical
to the Pagure one but reading `state` and label names. -/
def forgejo_issue_status (blocked_label : Option String)
    (api_result : ForgejoApiIssue) : IssueStatus :=
  let _state := strToLower api_result.state
  if _state ≠ "closed" then
    if pyTruthy blocked_label ∧
        blocked_label.getD "" ∈ api_result.labels then
      IssueStatus.blocked
    else
      if api_result.assignee.isNone then IssueStatus.new
      else IssueStatus.assigned
  else
    IssueStatus.closed

/-- `GitHubRepository.normalize_issue`: maps one raw GitHub item to the
canonical `Issue` (GitHub carries no story points; the derived status is
`github_issue_status`). -/
def github_normalize_issue (repo : RepoInfo) (blocked_label : Option String)
    (api_result : GitHubApiIssue) : Issue :=
  { repository := repo
    full_url := api_result.html_url
    title := api_result.title
    content := api_result.body
    assignee := api_result.assignee
    status := github_issue_status blocked_label api_result
    story_points := 0 }

/-- `PagureRepository.get_issue_params`
(src/jira_sync/repositories/pagure.py, lines 97–112): for closed issues the
query selects status "Closed" since the lookback cutoff
`int((now - timedelta(days=retrieve_closed_days_ago)).timestamp())`
(`nowTs` is the current UNIX timestamp); the repository's label filter, if
set (truthy), is passed as `tags`. -/
def pagure_get_issue_params (label : Option String)
    (retrieve_closed_days_ago : Int) (nowTs : Int) (closed : Bool) :
    List (String × String) :=
  let params : List (String × String) :=
    if closed then
      [("status", "Closed"),
       ("since", toString (nowTs - retrieve_closed_days_ago * 86400))]
    else
      []
  if ¬ pyTruthy label then
    params
  else
    params ++ [("tags", label.getD "")]

/-- `GitLabRepository.get_issue_params`
(src/jira_sync/repositories/gitlab.py, lines 119–134): state "closed" with
`updated_after` at the ISO-formatted lookback cutoff (passed in as
`cutoffIso`, abstracting the datetime library), or state "opened"; the label
filter, if set, is passed as `labels`. -/
def gitlab_get_issue_params (label : Option String) (cutoffIso : String)
    (closed : Bool) : List (String × String) :=
  let params : List (String × String) :=
    if closed then
      [("state", "closed"), ("updated_after", cutoffIso)]
    else
      [("state", "opened")]
  if ¬ pyTruthy label then
    params
  else
    params ++ [("labels", label.getD "")]

/-- `ForgejoRepository.get_issue_params`
(src/jira_sync/repositories/forgejo.py, lines 121–134): state "closed" with
`since` at the ISO-formatted lookback cutoff (passed in as `cutoffIso`), or
no state filter; the label filter, if set, is passed as `labels`. -/
def forgejo_get_issue_params (label : Option String) (cutoffIso : String)
    (closed : Bool) : List (String × String) :=
  let params : List (String × String) :=
    if closed then
      [("state", "closed"), ("since", cutoffIso)]
    else
      []
  if ¬ pyTruthy label then
    params
  else
    params ++ [("labels", label.getD "")]

/-- `GitHubRepository.get_issue_params`
(src/jira_sync/repositories/github.py, lines 113–116): note that unlike the
other three adapters and unlike the base-class declaration
`Repository.get_issue_params(self, closed: bool)`, this override takes NO
`closed` parameter. -/
def github_get_issue_params (label : Option String) :
    List (String × String) :=
  if ¬ pyTruthy label then
    []
  else
    [("labels", label.getD "")]

/-- The forge kinds registered as `Instance` subclasses. -/
inductive ForgeKind where
  | pagure
  | github
  | gitlab
  | forgejo
deriving DecidableEq, Repr

/-- The call `self.get_issue_params(closed)` performed by
`Repository.get_issues` (src/jira_sync/repositories/base.py, line 154),
dispatched to the adapter of the given kind.  For GitHub the dispatched
method `GitHubRepository.get_issue_params(self)` accepts no positional
argument, so the Python call raises
`TypeError: get_issue_params() takes 1 positional argument but 2 were given`;
this is modelled as the error result. -/
def call_get_issue_params (kind : ForgeKind) (label : Option String)
    (retrieve_closed_days_ago : Int) (nowTs : Int) (cutoffIso : String)
    (closed : Bool) : Except String (List (String × String)) :=
  match kind with
  | .pagure =>
    .ok (pagure_get_issue_params label retrieve_closed_days_ago nowTs closed)
  | .gitlab => .ok (gitlab_get_issue_params label cutoffIso closed)
  | .forgejo => .ok (forgejo_get_issue_params label cutoffIso closed)
  | .github =>
    .error "TypeError: get_issue_params() takes 1 positional argument but 2 were given"

/-- A raw JSON object returned inside an issue-listing page; the fetch loop
only inspects which keys it carries (`"pull_request" not in issue`). -/
structure ApiObject where
  fieldNames : List String
deriving DecidableEq, Repr

/-- One HTTP response observed by the fetch loop of
`Repository.get_issues`: its status code, the issue items of its payload
(after the configured selector) and whether `get_next_page` extracts a
further page from it. -/
structure FetchResponse where
  status : Nat
  items : List ApiObject
  hasNext : Bool
deriving DecidableEq, Repr

/-- The `while next_page := self.get_next_page(...)` loop of
`Repository.get_issues` (src/jira_sync/repositories/base.py, lines 156–182),
consuming one planned response per request.  On a 200 the items that do not
carry a `pull_request` key are normalized and appended (the normalize calls
are recorded in the last component); on a 404 on the very first request the
loop breaks, returning the accumulator; otherwise `response.raise_for_status()`
runs, which raises exactly for 4xx/5xx statuses (modelled as the error
result) and is a no-op for any other status, after which the loop continues
with `first_call = False`. -/
def get_issues_loop {ι : Type} (normalize : ApiObject → ι) :
    List FetchResponse → Bool → List ι → List ApiObject →
    Except Nat (List ι) × List ApiObject
  | [], _, acc, calls => (Except.ok acc, calls)
  | r :: rest, first_call, acc, calls =>
    if r.status = 200 then
      let kept := r.items.filter (fun it => "pull_request" ∉ it.fieldNames)
      let acc := acc ++ kept.map normalize
      let calls := calls ++ kept
      if r.hasNext then get_issues_loop normalize rest false acc calls
      else (Except.ok acc, calls)
    else if first_call ∧ r.status = 404 then
      (Except.ok acc, calls)
    else if 400 ≤ r.status then
      (Except.error r.status, calls)
    else if r.hasNext then
      get_issues_loop normalize rest false acc calls
    else
      (Except.ok acc, calls)

/-- `Repository.get_issues` run against a planned sequence of responses:
the loop starts with `first_call = True` and an empty accumulator. -/
def get_issues {ι : Type} (normalize : ApiObject → ι)
    (responses : List FetchResponse) : Except Nat (List ι) × List ApiObject :=
  get_issues_loop normalize responses true [] []

/-- Python dict union `a | b`: the keys of `a` in their order with values
overridden by `b` where present, followed by the keys of `b` not in `a`, in
their order in `b`. -/
def dictUnion {V : Type} (a b : List (String × V)) : List (String × V) :=
  a.map (fun kv =>
    match dictGet kv.1 b with
    | some v => (kv.1, v)
    | none => kv) ++
  b.filter (fun kv => ¬ (a.map Prod.fst).contains kv.1)

/-- The re-keying `repos = {key: repos[key] for key in sorted(repos)}` that
ends every `query_repositories` implementation
(e.g. src/jira_sync/repositories/pagure.py, line 177). -/
def sort_by_key {V : Type} (l : List (String × V)) : List (String × V) :=
  (List.insertionSort (fun a b => a ≤ b) (l.map Prod.fst)).filterMap
    (fun k => (dictGet k l).map (fun v => (k, v)))

/-- The effective repository specifications computed in `Instance.__init__`
(src/jira_sync/repositories/base.py, lines 285–287) when a discovery query
is configured: `self.query_repositories() | repositories`, where
`query_repositories` returns the discovered repositories sorted by key and
`staticRepos` are the statically configured ones. -/
def instance_repo_specs {V : Type} (discovered staticRepos : List (String × V)) :
    List (String × V) :=
  dictUnion (sort_by_key discovered) staticRepos

/-- Claim hypothesis: the JIRA issue's assignee already equals the assignee
computed from the forge issue — both unset, or the mapped forge assignee (a
non-empty JIRA identity) names the current JIRA assignee by key or by email
address, which is how one completed pass leaves them. -/
def assignee_in_sync (j : JiraIssue) (f : Issue) : Bool :=
  match j.assignee, forgeJiraAssignee f with
  | none, none => true
  | some ju, some a => decide (a ≠ "") && (a == ju.key || a == ju.emailAddress)
  | _, _ => false

/-- Claim hypothesis: the JIRA issue's assignee, status, labels and
story-points field already hold the values computed from its forge issue. -/
def pair_in_sync (cfg : JiraConfig) (j : JiraIssue) (f : Issue) : Bool :=
  assignee_in_sync j f &&
  (j.statusName == cfg.statuses.forStatus f.status) &&
  j.labels.contains cfg.label &&
  j.labels.contains (repoLabel f.repository) &&
  (j.storyPoints == f.story_points)

/-- Claim hypothesis: a blocked label is configured (non-empty) and appears
among the given labels/tags. -/
def blocked_label_in (bl : Option String) (ls : List String) : Prop :=
  ∃ b, bl = some b ∧ b ≠ "" ∧ b ∈ ls

/-! ## Theorems -/

/-- The blocked-check of the adapters' status derivation holds exactly when
a non-empty blocked label is configured and appears among the labels. -/
theorem pyTruthy_blocked_iff (bl : Option String) (ls : List String) :
    (pyTruthy bl = true ∧ bl.getD "" ∈ ls) ↔ blocked_label_in bl ls := by
  cases bl with
  | none => simp [pyTruthy, blocked_label_in]
  | some b =>
    simp only [pyTruthy, blocked_label_in, Option.getD_some, decide_eq_true_eq,
      Option.some.injEq]
    constructor
    · rintro ⟨hb, hmem⟩
      exact ⟨b, rfl, hb, hmem⟩
    · rintro ⟨c, rfl, hc, hmem⟩
      exact ⟨hc, hmem⟩

/-- C9: in every run mode other than `READ_WRITE`, the mutating wrapper
operations perform no call against the JIRA API: `create_issue` returns
`None` and issues no call, and `transition_issue`, `assign_to_issue` and
`update_issue` return without issuing any call. -/
theorem c9_non_read_write_no_mutation (mode : JiraRunMode)
    (hmode : mode ≠ JiraRunMode.READ_WRITE) (url : String)
    (labels : List String) (reply : Option JiraIssue) (issue : JiraIssue)
    (status : String) (user : Option String) (changes : Changes) :
    JIRA.create_issue mode url labels reply = (none, []) ∧
    JIRA.transition_issue mode issue status = [] ∧
    JIRA.assign_to_issue mode issue user = [] ∧
    JIRA.update_issue mode issue changes = [] := by
  refine ⟨?_, ?_, ?_, ?_⟩ <;>
    simp [JIRA.create_issue, JIRA.transition_issue, JIRA.assign_to_issue,
      JIRA.update_issue, hmode]

/-- Witness for C9 at `READ_ONLY` mode and concrete arguments. -/
theorem c9_non_read_write_no_mutation_witness :
    JIRA.create_issue JiraRunMode.READ_ONLY "https://forge/x/issues/1" [] none =
      (none, []) ∧
    JIRA.transition_issue JiraRunMode.READ_ONLY
      { key := "J-1", statusName := "NEW", labels := [], assignee := none,
        externalUrl := none, storyPoints := 0 } "CLOSED" = [] ∧
    JIRA.assign_to_issue JiraRunMode.READ_ONLY
      { key := "J-1", statusName := "NEW", labels := [], assignee := none,
        externalUrl := none, storyPoints := 0 } (some "alice") = [] ∧
    JIRA.update_issue JiraRunMode.READ_ONLY
      { key := "J-1", statusName := "NEW", labels := [], assignee := none,
        externalUrl := none, storyPoints := 0 }
      { labels := some ["lbl"], storyPoints := none } = [] :=
  c9_non_read_write_no_mutation JiraRunMode.READ_ONLY (by decide)
    "https://forge/x/issues/1" [] none
    { key := "J-1", statusName := "NEW", labels := [], assignee := none,
      externalUrl := none, storyPoints := 0 }
    "CLOSED" (some "alice") { labels := some ["lbl"], storyPoints := none }

/-- C4 (code bug): the call `self.get_issue_params(closed)` made by
`Repository.get_issues` succeeds on the Pagure, GitLab and Forgejo adapters
but raises a `TypeError` on the GitHub adapter, whose
`get_issue_params(self)` override accepts no `closed` parameter, so
`get_issues(closed=True)` does not succeed on every adapter kind. -/
theorem c4_github_get_issue_params_type_error (label : Option String)
    (days nowTs : Int) (cutoffIso : String) :
    call_get_issue_params ForgeKind.github label days nowTs cutoffIso true =
      Except.error
        "TypeError: get_issue_params() takes 1 positional argument but 2 were given" ∧
    (∃ ps, call_get_issue_params ForgeKind.pagure label days nowTs cutoffIso true =
      Except.ok ps) ∧
    (∃ ps, call_get_issue_params ForgeKind.gitlab label days nowTs cutoffIso true =
      Except.ok ps) ∧
    (∃ ps, call_get_issue_params ForgeKind.forgejo label days nowTs cutoffIso true =
      Except.ok ps) := by
  refine ⟨rfl, ⟨_, rfl⟩, ⟨_, rfl⟩, ⟨_, rfl⟩⟩

/-- C5: status-derivation precedence in every adapter's `normalize_issue`:
a forge-reported closed state derives `closed` regardless of blocked label
or assignee; otherwise a configured blocked label among the labels/tags
derives `blocked` regardless of assignee; otherwise `assigned` when an
assignee is present, else `new` — for the Pagure, GitHub, GitLab and Forgejo
adapters; GitHub's `normalize_issue` carries exactly this derived status. -/
theorem c5_status_precedence (bl : Option String) (p : PagureApiIssue)
    (g : GitHubApiIssue) (gl : GitLabApiIssue) (fo : ForgejoApiIssue)
    (repo : RepoInfo) :
    ((strToLower p.status = "closed" →
      pagure_issue_status bl p = IssueStatus.closed) ∧
    (strToLower p.status ≠ "closed" → blocked_label_in bl p.tags →
      pagure_issue_status bl p = IssueStatus.blocked) ∧
    (strToLower p.status ≠ "closed" → ¬ blocked_label_in bl p.tags →
      p.assignee.isSome → pagure_issue_status bl p = IssueStatus.assigned) ∧
    (strToLower p.status ≠ "closed" → ¬ blocked_label_in bl p.tags →
      p.assignee = none → pagure_issue_status bl p = IssueStatus.new)) ∧
    ((strToLower g.state = "closed" →
      github_issue_status bl g = IssueStatus.closed) ∧
    (strToLower g.state ≠ "closed" → blocked_label_in bl g.labels →
      github_issue_status bl g = IssueStatus.blocked) ∧
    (strToLower g.state ≠ "closed" → ¬ blocked_label_in bl g.labels →
      g.assignee.isSome → github_issue_status bl g = IssueStatus.assigned) ∧
    (strToLower g.state ≠ "closed" → ¬ blocked_label_in bl g.labels →
      g.assignee = none → github_issue_status bl g = IssueStatus.new)) ∧
    ((strToLower gl.state = "closed" →
      gitlab_issue_status bl gl = IssueStatus.closed) ∧
    (strToLower gl.state ≠ "closed" → blocked_label_in bl gl.labels →
      gitlab_issue_status bl gl = IssueStatus.blocked) ∧
    (strToLower gl.state ≠ "closed" → ¬ blocked_label_in bl gl.labels →
      gl.assignee.isSome → gitlab_issue_status bl gl = IssueStatus.assigned) ∧
    (strToLower gl.state ≠ "closed" → ¬ blocked_label_in bl gl.labels →
      gl.assignee = none → gitlab_issue_status bl gl = IssueStatus.new)) ∧
    ((strToLower fo.state = "closed" →
      forgejo_issue_status bl fo = IssueStatus.closed) ∧
    (strToLower fo.state ≠ "closed" → blocked_label_in bl fo.labels →
      forgejo_issue_status bl fo = IssueStatus.blocked) ∧
    (strToLower fo.state ≠ "closed" → ¬ blocked_label_in bl fo.labels →
      fo.assignee.isSome → forgejo_issue_status bl fo = IssueStatus.assigned) ∧
    (strToLower fo.state ≠ "closed" → ¬ blocked_label_in bl fo.labels →
      fo.assignee = none → forgejo_issue_status bl fo = IssueStatus.new)) ∧
    (github_normalize_issue repo bl g).status = github_issue_status bl g := by
  refine ⟨?_, ?_, ?_, ?_, rfl⟩
  · refine ⟨?_, ?_, ?_, ?_⟩
    · intro h
      simp [pagure_issue_status, h]
    · intro h hb
      have hc := (pyTruthy_blocked_iff bl p.tags).mpr hb
      simp [pagure_issue_status, h, hc.1, hc.2]
    · intro h hb ha
      have hc : ¬ (pyTruthy bl = true ∧ bl.getD "" ∈ p.tags) := fun hx =>
        hb ((pyTruthy_blocked_iff bl p.tags).mp hx)
      rw [Option.isSome_iff_exists] at ha
      obtain ⟨a, ha⟩ := ha
      simp [pagure_issue_status, h, hc, ha]
    · intro h hb ha
      have hc : ¬ (pyTruthy bl = true ∧ bl.getD "" ∈ p.tags) := fun hx =>
        hb ((pyTruthy_blocked_iff bl p.tags).mp hx)
      simp [pagure_issue_status, h, hc, ha]
  · refine ⟨?_, ?_, ?_, ?_⟩
    · intro h
      simp [github_issue_status, h]
    · intro h hb
      have hc := (pyTruthy_blocked_iff bl g.labels).mpr hb
      simp [github_issue_status, h, hc.1, hc.2]
    · intro h hb ha
      have hc : ¬ (pyTruthy bl = true ∧ bl.getD "" ∈ g.labels) := fun hx =>
        hb ((pyTruthy_blocked_iff bl g.labels).mp hx)
      rw [Option.isSome_iff_exists] at ha
      obtain ⟨a, ha⟩ := ha
      simp [github_issue_status, h, hc, ha]
    · intro h hb ha
      have hc : ¬ (pyTruthy bl = true ∧ bl.getD "" ∈ g.labels) := fun hx =>
        hb ((pyTruthy_blocked_iff bl g.labels).mp hx)
      simp [github_issue_status, h, hc, ha]
  · refine ⟨?_, ?_, ?_, ?_⟩
    · intro h
      simp [gitlab_issue_status, h]
    · intro h hb
      have hc := (pyTruthy_blocked_iff bl gl.labels).mpr hb
      simp [gitlab_issue_status, h, hc.1, hc.2]
    · intro h hb ha
      have hc : ¬ (pyTruthy bl = true ∧ bl.getD "" ∈ gl.labels) := fun hx =>
        hb ((pyTruthy_blocked_iff bl gl.labels).mp hx)
      rw [Option.isSome_iff_exists] at ha
      obtain ⟨a, ha⟩ := ha
      simp [gitlab_issue_status, h, hc, ha]
    · intro h hb ha
      have hc : ¬ (pyTruthy bl = true ∧ bl.getD "" ∈ gl.labels) := fun hx =>
        hb ((pyTruthy_blocked_iff bl gl.labels).mp hx)
      simp [gitlab_issue_status, h, hc, ha]
  · refine ⟨?_, ?_, ?_, ?_⟩
    · intro h
      simp [forgejo_issue_status, h]
    · intro h hb
      have hc := (pyTruthy_blocked_iff bl fo.labels).mpr hb
      simp [forgejo_issue_status, h, hc.1, hc.2]
    · intro h hb ha
      have hc : ¬ (pyTruthy bl = true ∧ bl.getD "" ∈ fo.labels) := fun hx =>
        hb ((pyTruthy_blocked_iff bl fo.labels).mp hx)
      rw [Option.isSome_iff_exists] at ha
      obtain ⟨a, ha⟩ := ha
      simp [forgejo_issue_status, h, hc, ha]
    · intro h hb ha
      have hc : ¬ (pyTruthy bl = true ∧ bl.getD "" ∈ fo.labels) := fun hx =>
        hb ((pyTruthy_blocked_iff bl fo.labels).mp hx)
      simp [forgejo_issue_status, h, hc, ha]


/-- Witness for C5: concrete precedence cases across the four adapters. -/
theorem c5_status_precedence_witness :
    pagure_issue_status (some "block")
      { full_url := "u", title := "t", content := "c",
        assignee := some "alice", status := "Closed", tags := ["block"] } =
      IssueStatus.closed ∧
    pagure_issue_status (some "block")
      { full_url := "u", title := "t", content := "c",
        assignee := some "alice", status := "Open", tags := ["block"] } =
      IssueStatus.blocked ∧
    pagure_issue_status (some "block")
      { full_url := "u", title := "t", content := "c",
        assignee := some "alice", status := "Open", tags := [] } =
      IssueStatus.assigned ∧
    pagure_issue_status (some "block")
      { full_url := "u", title := "t", content := "c",
        assignee := none, status := "Open", tags := [] } =
      IssueStatus.new ∧
    github_issue_status (some "block")
      { html_url := "u", title := "t", body := "c",
        assignee := some "alice", state := "open", labels := ["block"] } =
      IssueStatus.blocked ∧
    gitlab_issue_status (some "block")
      { web_url := "u", title := "t", description := "c",
        assignee := some "alice", state := "opened", labels := ["block"] } =
      IssueStatus.blocked ∧
    forgejo_issue_status (some "block")
      { html_url := "u", title := "t", body := "c",
        assignee := some "alice", state := "Closed", labels := [] } =
      IssueStatus.closed := by
  have hnb : ¬ blocked_label_in (some "block") ([] : List String) := by
    rintro ⟨b, hb, hne, hmem⟩
    simp at hmem
  refine ⟨?_, ?_, ?_, ?_, ?_, ?_, ?_⟩
  · exact (c5_status_precedence (some "block")
      { full_url := "u", title := "t", content := "c",
        assignee := some "alice", status := "Closed", tags := ["block"] }
      { html_url := "u", title := "t", body := "c",
        assignee := some "alice", state := "open", labels := ["block"] }
      { web_url := "u", title := "t", description := "c",
        assignee := some "alice", state := "open", labels := ["block"] }
      { html_url := "u", title := "t", body := "c",
        assignee := some "alice", state := "open", labels := ["block"] }
      { instanceName := "i", repoName := "r", usermap := [] }).1.1 (by decide)
  · exact (c5_status_precedence (some "block")
      { full_url := "u", title := "t", content := "c",
        assignee := some "alice", status := "Open", tags := ["block"] }
      { html_url := "u", title := "t", body := "c",
        assignee := some "alice", state := "open", labels := ["block"] }
      { web_url := "u", title := "t", description := "c",
        assignee := some "alice", state := "open", labels := ["block"] }
      { html_url := "u", title := "t", body := "c",
        assignee := some "alice", state := "open", labels := ["block"] }
      { instanceName := "i", repoName := "r", usermap := [] }).1.2.1 (by decide)
      ⟨"block", rfl, by decide, by decide⟩
  · exact (c5_status_precedence (some "block")
      { full_url := "u", title := "t", content := "c",
        assignee := some "alice", status := "Open", tags := [] }
      { html_url := "u", title := "t", body := "c",
        assignee := some "alice", state := "open", labels := ["block"] }
      { web_url := "u", title := "t", description := "c",
        assignee := some "alice", state := "open", labels := ["block"] }
      { html_url := "u", title := "t", body := "c",
        assignee := some "alice", state := "open", labels := ["block"] }
      { instanceName := "i", repoName := "r", usermap := [] }).1.2.2.1 (by decide)
      hnb (by decide)
  · exact (c5_status_precedence (some "block")
      { full_url := "u", title := "t", content := "c",
        assignee := none, status := "Open", tags := [] }
      { html_url := "u", title := "t", body := "c",
        assignee := some "alice", state := "open", labels := ["block"] }
      { web_url := "u", title := "t", description := "c",
        assignee := some "alice", state := "open", labels := ["block"] }
      { html_url := "u", title := "t", body := "c",
        assignee := some "alice", state := "open", labels := ["block"] }
      { instanceName := "i", repoName := "r", usermap := [] }).1.2.2.2 (by decide)
      hnb rfl
  · exact (c5_status_precedence (some "block")
      { full_url := "u", title := "t", content := "c",
        assignee := some "alice", status := "Open", tags := ["block"] }
      { html_url := "u", title := "t", body := "c",
        assignee := some "alice", state := "open", labels := ["block"] }
      { web_url := "u", title := "t", description := "c",
        assignee := some "alice", state := "open", labels := ["block"] }
      { html_url := "u", title := "t", body := "c",
        assignee := some "alice", state := "open", labels := ["block"] }
      { instanceName := "i", repoName := "r", usermap := [] }).2.1.2.1 (by decide)
      ⟨"block", rfl, by decide, by decide⟩
  · exact (c5_status_precedence (some "block")
      { full_url := "u", title := "t", content := "c",
        assignee := some "alice", status := "Open", tags := ["block"] }
      { html_url := "u", title := "t", body := "c",
        assignee := some "alice", state := "open", labels := ["block"] }
      { web_url := "u", title := "t", description := "c",
        assignee := some "alice", state := "opened", labels := ["block"] }
      { html_url := "u", title := "t", body := "c",
        assignee := some "alice", state := "open", labels := ["block"] }
      { instanceName := "i", repoName := "r", usermap := [] }).2.2.1.2.1 (by decide)
      ⟨"block", rfl, by decide, by decide⟩
  · exact (c5_status_precedence (some "block")
      { full_url := "u", title := "t", content := "c",
        assignee := some "alice", status := "Open", tags := ["block"] }
      { html_url := "u", title := "t", body := "c",
        assignee := some "alice", state := "open", labels := ["block"] }
      { web_url := "u", title := "t", description := "c",
        assignee := some "alice", state := "open", labels := ["block"] }
      { html_url := "u", title := "t", body := "c",
        assignee := some "alice", state := "Closed", labels := [] }
      { instanceName := "i", repoName := "r", usermap := [] }).2.2.2.1.1 (by decide)

/-- The calls of `reconcile_pair`, written as the three explicit segments
(assignee, status transition, final update). -/
theorem reconcile_pair_eq (cfg : JiraConfig) (j : JiraIssue) (f : Issue) :
    reconcile_pair cfg j f =
      (if assigneeChangeNeeded j (forgeJiraAssignee f) then
        [SyncCall.assignToIssue j.key (forgeJiraAssignee f)]
      else []) ++
      ((if j.statusName = cfg.statuses.forStatus f.status then []
        else if f.status = IssueStatus.new ∧
            j.statusName ∉ cfg.statuses.values then []
        else [SyncCall.transitionIssue j.key (cfg.statuses.forStatus f.status)]) ++
      [SyncCall.updateIssue j.key
        (JIRA.add_story_points cfg j f.story_points
          (JIRA.add_labels j [cfg.label, repoLabel f.repository]
            Changes.empty))]) := by
  simp [reconcile_pair]

/-- C3: the status guard of `reconcile_jira_forge_issues`: when the forge
status is `new` and the JIRA issue's current status is not one of the
configured status-map values, no `transition_issue` call is made for the
pair; for any forge status other than `new` whose mapped target differs from
the current JIRA status, the transition call is made unconditionally. -/
theorem c3_status_guard (cfg : JiraConfig) (j : JiraIssue) (f : Issue) :
    (f.status = IssueStatus.new → j.statusName ∉ cfg.statuses.values →
      ∀ k s, SyncCall.transitionIssue k s ∉ reconcile_pair cfg j f) ∧
    (f.status ≠ IssueStatus.new →
      cfg.statuses.forStatus f.status ≠ j.statusName →
      SyncCall.transitionIssue j.key (cfg.statuses.forStatus f.status) ∈
        reconcile_pair cfg j f) := by
  constructor
  · intro h1 h2 k s hmem
    rw [reconcile_pair_eq] at hmem
    rcases List.mem_append.mp hmem with hmem | hmem
    · split at hmem <;> simp at hmem
    · rcases List.mem_append.mp hmem with hmem | hmem
      · rcases em (j.statusName = cfg.statuses.forStatus f.status) with hst | hst
        · rw [if_pos hst] at hmem
          simp at hmem
        · rw [if_neg hst, if_pos ⟨h1, h2⟩] at hmem
          simp at hmem
      · simp at hmem
  · intro h1 h2
    rw [reconcile_pair_eq]
    refine List.mem_append.mpr (Or.inr (List.mem_append.mpr (Or.inl ?_)))
    rw [if_neg (fun hx => h2 hx.symm), if_neg (fun hx => h1 hx.1)]
    exact List.mem_singleton.mpr rfl

/-- Witness for C3: the guard suppresses the transition for a `new` forge
issue over an unknown JIRA status, and a `closed` forge issue is
transitioned from a differing status. -/
theorem c3_status_guard_witness :
    (∀ k s, SyncCall.transitionIssue k s ∉
      reconcile_pair
        { label := "sync", story_points_field := "",
          statuses := { new := "NEW", assigned := "IN_PROGRESS",
                        blocked := "BLOCKED", closed := "DONE" } }
        { key := "J-1", statusName := "TRIAGE", labels := [],
          assignee := none, externalUrl := some "u", storyPoints := 0 }
        { repository := { instanceName := "i", repoName := "r", usermap := [] },
          full_url := "u", title := "t", content := "c", assignee := none,
          status := IssueStatus.new, story_points := 0 }) ∧
    SyncCall.transitionIssue "J-2" "DONE" ∈
      reconcile_pair
        { label := "sync", story_points_field := "",
          statuses := { new := "NEW", assigned := "IN_PROGRESS",
                        blocked := "BLOCKED", closed := "DONE" } }
        { key := "J-2", statusName := "IN_PROGRESS", labels := [],
          assignee := none, externalUrl := some "u", storyPoints := 0 }
        { repository := { instanceName := "i", repoName := "r", usermap := [] },
          full_url := "u", title := "t", content := "c", assignee := none,
          status := IssueStatus.closed, story_points := 0 } :=
  ⟨(c3_status_guard
      { label := "sync", story_points_field := "",
        statuses := { new := "NEW", assigned := "IN_PROGRESS",
                      blocked := "BLOCKED", closed := "DONE" } }
      { key := "J-1", statusName := "TRIAGE", labels := [],
        assignee := none, externalUrl := some "u", storyPoints := 0 }
      { repository := { instanceName := "i", repoName := "r", usermap := [] },
        full_url := "u", title := "t", content := "c", assignee := none,
        status := IssueStatus.new, story_points := 0 }).1 rfl (by decide),
   (c3_status_guard
      { label := "sync", story_points_field := "",
        statuses := { new := "NEW", assigned := "IN_PROGRESS",
                      blocked := "BLOCKED", closed := "DONE" } }
      { key := "J-2", statusName := "IN_PROGRESS", labels := [],
        assignee := none, externalUrl := some "u", storyPoints := 0 }
      { repository := { instanceName := "i", repoName := "r", usermap := [] },
        full_url := "u", title := "t", content := "c", assignee := none,
        status := IssueStatus.closed, story_points := 0 }).2 (by decide)
     (by decide)⟩

/-- A synced assignee never triggers the assignee-change condition of
`reconcile_jira_forge_issues`. -/
theorem assigneeChangeNeeded_eq_false (j : JiraIssue) (f : Issue)
    (ha : assignee_in_sync j f = true) :
    assigneeChangeNeeded j (forgeJiraAssignee f) = false := by
  revert ha
  unfold assignee_in_sync assigneeChangeNeeded
  rcases j.assignee with _ | ju <;> rcases forgeJiraAssignee f with _ | a <;>
    intro ha
  · simp [pyTruthy]
  · simp at ha
  · simp at ha
  · simp only [Bool.and_eq_true, Bool.or_eq_true, beq_iff_eq,
      decide_eq_true_eq] at ha
    obtain ⟨hne, hkey⟩ := ha
    simp only [pyTruthy, Option.isSome_some, Bool.or_eq_false_iff,
      decide_eq_false_iff_not, ne_eq, Bool.and_eq_false_iff]
    constructor
    · simp [hne]
    · rcases hkey with hk | hk <;> simp [hk]

/-- A fully synced pair produces exactly one wrapper call: `update_issue`
with the empty change set. -/
theorem reconcile_pair_in_sync (cfg : JiraConfig) (j : JiraIssue) (f : Issue)
    (h : pair_in_sync cfg j f = true) :
    reconcile_pair cfg j f = [SyncCall.updateIssue j.key Changes.empty] := by
  unfold pair_in_sync at h
  simp only [Bool.and_eq_true, beq_iff_eq] at h
  obtain ⟨⟨⟨⟨ha, hst⟩, hl1⟩, hl2⟩, hsp⟩ := h
  have hl1m : cfg.label ∈ j.labels := by simpa using hl1
  have hl2m : repoLabel f.repository ∈ j.labels := by simpa using hl2
  rw [reconcile_pair_eq]
  rw [assigneeChangeNeeded_eq_false j f ha]
  have hlab : JIRA.add_labels j [cfg.label, repoLabel f.repository]
      Changes.empty = Changes.empty := by
    unfold JIRA.add_labels
    simp [hl1m, hl2m]
  have hsto : JIRA.add_story_points cfg j f.story_points Changes.empty =
      Changes.empty := by
    unfold JIRA.add_story_points
    split
    · rfl
    · simp [hsp]
  rw [hlab, hsto, if_pos hst]
  simp

/-- C2: idempotence of the reconciliation engine: over matched pairs whose
JIRA issues already hold the assignee, status, labels and story points
computed from their forge issues, `reconcile_jira_forge_issues` makes no
`assign_to_issue` and no `transition_issue` call and calls `update_issue`
with the empty change set, once per pair. -/
theorem c2_reconcile_idempotent (cfg : JiraConfig)
    (pairs : List (JiraIssue × Issue))
    (h : ∀ p ∈ pairs, pair_in_sync cfg p.1 p.2 = true) :
    reconcile_jira_forge_issues cfg pairs =
      pairs.map (fun p => SyncCall.updateIssue p.1.key Changes.empty) := by
  induction pairs with
  | nil => rfl
  | cons p rest ih =>
    have hp := h p (List.mem_cons_self p rest)
    have hr : ∀ q ∈ rest, pair_in_sync cfg q.1 q.2 = true := fun q hq =>
      h q (List.mem_cons_of_mem p hq)
    have hstep : reconcile_jira_forge_issues cfg (p :: rest) =
        reconcile_pair cfg p.1 p.2 ++ reconcile_jira_forge_issues cfg rest := by
      simp [reconcile_jira_forge_issues]
    rw [hstep, reconcile_pair_in_sync cfg p.1 p.2 hp, ih hr, List.map_cons]
    rfl

/-- Witness for C2: a concrete fully synced pair yields exactly one
`update_issue` call with the empty change set. -/
theorem c2_reconcile_idempotent_witness :
    reconcile_jira_forge_issues
      { label := "sync", story_points_field := "sp",
        statuses := { new := "NEW", assigned := "IN_PROGRESS",
                      blocked := "BLOCKED", closed := "DONE" } }
      [({ key := "J-1", statusName := "IN_PROGRESS",
          labels := ["sync", "pagure.io:proj"],
          assignee := some { key := "jalice", name := "jalice",
                             emailAddress := "alice@example.com" },
          externalUrl := some "https://pagure.io/proj/issue/1",
          storyPoints := 5 },
        { repository := { instanceName := "pagure.io", repoName := "proj",
                          usermap := [("alice", "jalice")] },
          full_url := "https://pagure.io/proj/issue/1", title := "t",
          content := "c", assignee := some "alice",
          status := IssueStatus.assigned, story_points := 5 })] =
      [SyncCall.updateIssue "J-1" Changes.empty] :=
  c2_reconcile_idempotent
    { label := "sync", story_points_field := "sp",
      statuses := { new := "NEW", assigned := "IN_PROGRESS",
                    blocked := "BLOCKED", closed := "DONE" } }
    [({ key := "J-1", statusName := "IN_PROGRESS",
        labels := ["sync", "pagure.io:proj"],
        assignee := some { key := "jalice", name := "jalice",
                           emailAddress := "alice@example.com" },
        externalUrl := some "https://pagure.io/proj/issue/1",
        storyPoints := 5 },
      { repository := { instanceName := "pagure.io", repoName := "proj",
                        usermap := [("alice", "jalice")] },
        full_url := "https://pagure.io/proj/issue/1", title := "t",
        content := "c", assignee := some "alice",
        status := IssueStatus.assigned, story_points := 5 })]
    (by decide)

/-- A JIRA issue without an external URL matches no forge issue in the
pool. -/
theorem find_none_url (j : JiraIssue) (hurl : j.externalUrl = none)
    (pool : List Issue) : pool.find? (fun f => urlMatches j f) = none := by
  apply List.find?_eq_none.mpr
  intro f _
  simp [urlMatches, get_full_url_from_jira_issue, hurl]

/-- The unmatched-JIRA accumulator of the matching loop only grows. -/
theorem match_go_unmatched_acc (js : List JiraIssue)
    (m : List (JiraIssue × Issue)) (u : List JiraIssue) (pool : List Issue)
    (j : JiraIssue) (hj : j ∈ u) : j ∈ (match_go js m u pool).2.1 := by
  induction js generalizing m u pool with
  | nil => exact hj
  | cons j' rest ih =>
    unfold match_go
    cases hfind : pool.find? (fun f => urlMatches j' f) with
    | some f => exact ih _ _ _ hj
    | none => exact ih _ _ _ (List.mem_append_left _ hj)

/-- Every pair recorded by the matching loop beyond the initial accumulator
has its JIRA issue's external URL equal to its forge issue's full URL. -/
theorem match_go_matched_spec (js : List JiraIssue)
    (m : List (JiraIssue × Issue)) (u : List JiraIssue) (pool : List Issue)
    (pair : JiraIssue × Issue) (hmem : pair ∈ (match_go js m u pool).1) :
    pair ∈ m ∨ pair.1.externalUrl = some pair.2.full_url := by
  induction js generalizing m u pool with
  | nil => exact Or.inl hmem
  | cons j' rest ih =>
    unfold match_go at hmem
    cases hfind : pool.find? (fun f => urlMatches j' f) with
    | some f =>
      rw [hfind] at hmem
      rcases ih _ _ _ hmem with hin | heq
      · rcases List.mem_append.mp hin with hin | hin
        · exact Or.inl hin
        · have hp := List.find?_some hfind
          have hpair := List.mem_singleton.mp hin
          subst hpair
          simp only [urlMatches, get_full_url_from_jira_issue,
            decide_eq_true_eq] at hp
          exact Or.inr hp
      · exact Or.inr heq
    | none =>
      rw [hfind] at hmem
      exact ih _ _ _ hmem

/-- A JIRA issue without an external URL always ends up among the unmatched
JIRA issues of the matching loop. -/
theorem match_go_none_url_unmatched (js : List JiraIssue)
    (m : List (JiraIssue × Issue)) (u : List JiraIssue) (pool : List Issue)
    (j : JiraIssue) (hj : j ∈ js) (hurl : j.externalUrl = none) :
    j ∈ (match_go js m u pool).2.1 := by
  induction js generalizing m u pool with
  | nil => cases hj
  | cons j' rest ih =>
    unfold match_go
    rcases List.mem_cons.mp hj with heq | hin
    · subst heq
      rw [find_none_url j hurl pool]
      exact match_go_unmatched_acc _ _ _ _ _
        (List.mem_append_right _ (List.mem_singleton.mpr rfl))
    · cases hfind : pool.find? (fun f => urlMatches j' f) with
      | some f => exact ih _ _ _ hin
      | none => exact ih _ _ _ hin

/-- C1 (amended): a JIRA issue whose external-URL field is empty/missing
never matches any forge issue, but it is not excluded from the close step:
it is classified as unmatched, and `sync_issues` passes the whole unmatched
set to `close_jira_issues`. -/
theorem c1_none_url_excluded_from_matching (js : List JiraIssue)
    (fs : List Issue) (j : JiraIssue)
    (hj : j ∈ js) (hurl : get_full_url_from_jira_issue j = none) :
    (∀ f : Issue, (j, f) ∉ (match_jira_forge_issues js fs).1) ∧
    j ∈ (match_jira_forge_issues js fs).2.1 := by
  constructor
  · intro f hmem
    rcases match_go_matched_spec js [] [] fs (j, f) hmem with hin | heq
    · cases hin
    · unfold get_full_url_from_jira_issue at hurl
      have heq2 : j.externalUrl = some f.full_url := heq
      rw [hurl] at heq2
      cases heq2
  · exact match_go_none_url_unmatched js [] [] fs j hj hurl

/-- Witness for C1 (amended) at a concrete URL-less JIRA issue. -/
theorem c1_none_url_excluded_from_matching_witness :
    (∀ f : Issue,
      ({ key := "JIRA-1", statusName := "NEW", labels := ["sync"],
         assignee := none, externalUrl := none, storyPoints := 0 : JiraIssue},
        f) ∉
        (match_jira_forge_issues
          [{ key := "JIRA-1", statusName := "NEW", labels := ["sync"],
             assignee := none, externalUrl := none, storyPoints := 0 }]
          []).1) ∧
    ({ key := "JIRA-1", statusName := "NEW", labels := ["sync"],
       assignee := none, externalUrl := none, storyPoints := 0 : JiraIssue}) ∈
      (match_jira_forge_issues
        [{ key := "JIRA-1", statusName := "NEW", labels := ["sync"],
           assignee := none, externalUrl := none, storyPoints := 0 }]
        []).2.1 :=
  c1_none_url_excluded_from_matching
    [{ key := "JIRA-1", statusName := "NEW", labels := ["sync"],
       assignee := none, externalUrl := none, storyPoints := 0 }]
    []
    { key := "JIRA-1", statusName := "NEW", labels := ["sync"],
      assignee := none, externalUrl := none, storyPoints := 0 }
    (List.mem_singleton.mpr rfl) rfl

/-- Counterexample to C1 as stated: in the `sync_issues` pipeline a JIRA
issue for which `get_full_url_from_jira_issue` returns `None` is passed to
`close_jira_issues`, which transitions it to the configured closed status —
it is not excluded from the close step. -/
theorem c1_none_url_closed_counterexample :
    get_full_url_from_jira_issue
      { key := "JIRA-1", statusName := "NEW", labels := ["sync"],
        assignee := none, externalUrl := none, storyPoints := 0 } = none ∧
    sync_close_calls
      { label := "sync", story_points_field := "",
        statuses := { new := "NEW", assigned := "IN_PROGRESS",
                      blocked := "BLOCKED", closed := "DONE" } }
      [{ key := "JIRA-1", statusName := "NEW", labels := ["sync"],
         assignee := none, externalUrl := none, storyPoints := 0 }]
      [] =
      [SyncCall.transitionIssue "JIRA-1" "DONE"] :=
  ⟨rfl, rfl⟩

/-- One unfolding step of the fetch loop on a non-empty response list. -/
theorem get_issues_loop_cons {ι : Type} (normalize : ApiObject → ι)
    (r : FetchResponse) (rest : List FetchResponse) (first : Bool)
    (acc : List ι) (calls : List ApiObject) :
    get_issues_loop normalize (r :: rest) first acc calls =
      if r.status = 200 then
        if r.hasNext then
          get_issues_loop normalize rest false
            (acc ++ (r.items.filter
              (fun it => "pull_request" ∉ it.fieldNames)).map normalize)
            (calls ++ r.items.filter
              (fun it => "pull_request" ∉ it.fieldNames))
        else
          (Except.ok (acc ++ (r.items.filter
              (fun it => "pull_request" ∉ it.fieldNames)).map normalize),
            calls ++ r.items.filter
              (fun it => "pull_request" ∉ it.fieldNames))
      else if first ∧ r.status = 404 then
        (Except.ok acc, calls)
      else if 400 ≤ r.status then
        (Except.error r.status, calls)
      else if r.hasNext then
        get_issues_loop normalize rest false acc calls
      else
        (Except.ok acc, calls) := rfl

/-- C6 (amended): a 404 on the very first request of the fetch loop
terminates it with the untouched (empty) accumulator and no error; a 404 on
any later request errors; any 4xx/5xx status other than a first-request 404
errors.  (A non-2xx status below 400, e.g. a 304, does not error:
`raise_for_status` raises only for 4xx/5xx.) -/
theorem c6_fetch_loop_error_handling {ι : Type} (normalize : ApiObject → ι)
    (r : FetchResponse) (rest : List FetchResponse) (acc : List ι)
    (calls : List ApiObject) :
    (r.status = 404 →
      (get_issues normalize (r :: rest)).1 = Except.ok []) ∧
    (r.status = 404 →
      (get_issues_loop normalize (r :: rest) false acc calls).1 =
        Except.error 404) ∧
    (400 ≤ r.status → r.status ≠ 404 → ∀ first : Bool,
      (get_issues_loop normalize (r :: rest) first acc calls).1 =
        Except.error r.status) := by
  refine ⟨?_, ?_, ?_⟩
  · intro h404
    unfold get_issues
    rw [get_issues_loop_cons, if_neg (by omega : ¬ r.status = 200),
      if_pos (⟨rfl, h404⟩ : true = true ∧ r.status = 404)]
  · intro h404
    rw [get_issues_loop_cons, if_neg (by omega : ¬ r.status = 200),
      if_neg (by simp : ¬ (false = true ∧ r.status = 404)),
      if_pos (by omega : 400 ≤ r.status), h404]
  · intro hge hne first
    rw [get_issues_loop_cons, if_neg (by omega : ¬ r.status = 200),
      if_neg (by simp [hne] : ¬ (first = true ∧ r.status = 404)),
      if_pos hge]

/-- Counterexample to C6 as stated: a 304 response (a non-2xx status, not a
404) on the first request does not raise — `raise_for_status` is a no-op
below 400, and the fetch returns successfully with the empty result. -/
theorem c6_status_304_counterexample :
    (get_issues (fun o : ApiObject => o)
      [{ status := 304, items := [], hasNext := false }]).1 =
      Except.ok [] := rfl

/-- Witness for C6 at concrete responses: a first-request 404 yields the
empty result, a later-request 404 errors, and a 500 errors. -/
theorem c6_fetch_loop_error_handling_witness :
    (get_issues (fun o : ApiObject => o)
      [{ status := 404, items := [], hasNext := false }]).1 =
      Except.ok [] ∧
    (get_issues_loop (fun o : ApiObject => o)
      [{ status := 404, items := [], hasNext := false }] false [] []).1 =
      Except.error 404 ∧
    (get_issues_loop (fun o : ApiObject => o)
      [{ status := 500, items := [], hasNext := false }] true [] []).1 =
      Except.error 500 :=
  ⟨(c6_fetch_loop_error_handling (fun o : ApiObject => o)
      { status := 404, items := [], hasNext := false } [] [] []).1 rfl,
   (c6_fetch_loop_error_handling (fun o : ApiObject => o)
      { status := 404, items := [], hasNext := false } [] [] []).2.1 rfl,
   (c6_fetch_loop_error_handling (fun o : ApiObject => o)
      { status := 500, items := [], hasNext := false } [] [] []).2.2
      (by decide) (by decide) true⟩

/-- The fetch loop only ever normalizes items without a `pull_request` key,
and a successful fetch returns exactly the accumulator extended by the
normalized kept items. -/
theorem get_issues_loop_spec {ι : Type} (normalize : ApiObject → ι) :
    ∀ (rs : List FetchResponse) (first : Bool) (acc : List ι)
      (calls : List ApiObject),
      ∃ newCalls : List ApiObject,
        (get_issues_loop normalize rs first acc calls).2 = calls ++ newCalls ∧
        (∀ o ∈ newCalls, "pull_request" ∉ o.fieldNames) ∧
        (∀ out, (get_issues_loop normalize rs first acc calls).1 =
            Except.ok out →
          out = acc ++ newCalls.map normalize) := by
  intro rs
  induction rs with
  | nil =>
    intro first acc calls
    refine ⟨[], by simp [get_issues_loop], by simp, ?_⟩
    intro out hout
    unfold get_issues_loop at hout
    cases hout
    simp
  | cons r rest ih =>
    intro first acc calls
    by_cases h200 : r.status = 200
    · by_cases hnext : r.hasNext
      · obtain ⟨nc, h1, h2, h3⟩ := ih false
          (acc ++ (r.items.filter
            (fun it => "pull_request" ∉ it.fieldNames)).map normalize)
          (calls ++ r.items.filter (fun it => "pull_request" ∉ it.fieldNames))
        refine ⟨r.items.filter (fun it => "pull_request" ∉ it.fieldNames) ++ nc,
          ?_, ?_, ?_⟩
        · rw [get_issues_loop_cons, if_pos h200, if_pos hnext, h1,
            List.append_assoc]
        · intro o ho
          rcases List.mem_append.mp ho with ho | ho
          · exact of_decide_eq_true (List.mem_filter.mp ho).2
          · exact h2 o ho
        · intro out hout
          rw [get_issues_loop_cons, if_pos h200, if_pos hnext] at hout
          rw [h3 out hout, List.map_append, List.append_assoc]
      · refine ⟨r.items.filter (fun it => "pull_request" ∉ it.fieldNames),
          ?_, ?_, ?_⟩
        · rw [get_issues_loop_cons, if_pos h200, if_neg hnext]
        · intro o ho
          exact of_decide_eq_true (List.mem_filter.mp ho).2
        · intro out hout
          rw [get_issues_loop_cons, if_pos h200, if_neg hnext] at hout
          cases hout
          rfl
    · by_cases h404 : first = true ∧ r.status = 404
      · refine ⟨[], ?_, by simp, ?_⟩
        · rw [get_issues_loop_cons, if_neg h200, if_pos h404]
          simp
        · intro out hout
          rw [get_issues_loop_cons, if_neg h200, if_pos h404] at hout
          cases hout
          simp
      · by_cases herr : 400 ≤ r.status
        · refine ⟨[], ?_, by simp, ?_⟩
          · rw [get_issues_loop_cons, if_neg h200, if_neg h404, if_pos herr]
            simp
          · intro out hout
            rw [get_issues_loop_cons, if_neg h200, if_neg h404,
              if_pos herr] at hout
            cases hout
        · by_cases hnext : r.hasNext
          · obtain ⟨nc, h1, h2, h3⟩ := ih false acc calls
            refine ⟨nc, ?_, h2, ?_⟩
            · rw [get_issues_loop_cons, if_neg h200, if_neg h404,
                if_neg herr, if_pos hnext]
              exact h1
            · intro out hout
              rw [get_issues_loop_cons, if_neg h200, if_neg h404,
                if_neg herr, if_pos hnext] at hout
              exact h3 out hout
          · refine ⟨[], ?_, by simp, ?_⟩
            · rw [get_issues_loop_cons, if_neg h200, if_neg h404,
                if_neg herr, if_neg hnext]
              simp
            · intro out hout
              rw [get_issues_loop_cons, if_neg h200, if_neg h404,
                if_neg herr, if_neg hnext] at hout
              cases hout
              simp

/-- C10: for every forge kind (the pull-request filter lives in the shared
`Repository.get_issues`, so for any `normalize_issue`), an API item carrying
a `pull_request` key is never passed to `normalize_issue`, and a successful
fetch returns exactly the normalizations of the kept (non-pull-request)
items. -/
theorem c10_pull_requests_dropped {ι : Type} (normalize : ApiObject → ι)
    (rs : List FetchResponse) :
    (∀ o ∈ (get_issues normalize rs).2, "pull_request" ∉ o.fieldNames) ∧
    (∀ out, (get_issues normalize rs).1 = Except.ok out →
      out = ((get_issues normalize rs).2).map normalize) := by
  obtain ⟨nc, h1, h2, h3⟩ := get_issues_loop_spec normalize rs true [] []
  constructor
  · intro o ho
    rw [show get_issues normalize rs = get_issues_loop normalize rs true [] []
      from rfl, h1] at ho
    exact h2 o (by simpa using ho)
  · intro out hout
    rw [show get_issues normalize rs = get_issues_loop normalize rs true [] []
      from rfl, h1]
    rw [show (get_issues normalize rs).1 =
      (get_issues_loop normalize rs true [] []).1 from rfl] at hout
    rw [h3 out hout]
    simp

/-- Witness for C10: one 200 page holding a pull request and an issue — the
pull request is dropped, the issue alone is normalized and returned. -/
theorem c10_pull_requests_dropped_witness :
    (∀ o ∈ (get_issues (fun o : ApiObject => o)
        [{ status := 200,
           items := [{ fieldNames := ["pull_request", "id"] },
                     { fieldNames := ["id"] }],
           hasNext := false }]).2, "pull_request" ∉ o.fieldNames) ∧
    ([{ fieldNames := ["id"] }] : List ApiObject) =
      ((get_issues (fun o : ApiObject => o)
        [{ status := 200,
           items := [{ fieldNames := ["pull_request", "id"] },
                     { fieldNames := ["id"] }],
           hasNext := false }]).2).map (fun o => o) :=
  ⟨(c10_pull_requests_dropped (fun o : ApiObject => o)
      [{ status := 200,
         items := [{ fieldNames := ["pull_request", "id"] },
                   { fieldNames := ["id"] }],
         hasNext := false }]).1,
   (c10_pull_requests_dropped (fun o : ApiObject => o)
      [{ status := 200,
         items := [{ fieldNames := ["pull_request", "id"] },
                   { fieldNames := ["id"] }],
         hasNext := false }]).2 [{ fieldNames := ["id"] }] rfl⟩

/-- A key listed among a dict's keys is retrievable. -/
theorem dictGet_isSome_of_mem_keys {V : Type} (k : String)
    (l : List (String × V)) (h : k ∈ l.map Prod.fst) :
    (dictGet k l).isSome := by
  induction l with
  | nil => simp at h
  | cons kv t ih =>
    rw [List.map_cons, List.mem_cons] at h
    unfold dictGet
    by_cases heq : kv.1 = k
    · rw [List.find?_cons_of_pos _ (by simp [heq])]
      simp
    · rw [List.find?_cons_of_neg _ (by simp [heq])]
      rcases h with h | h
      · exact absurd h.symm heq
      · exact ih h

/-- Retrieving a listed key succeeds with some value. -/
theorem dictGet_eq_some_of_mem_keys {V : Type} (k : String)
    (l : List (String × V)) (h : k ∈ l.map Prod.fst) :
    ∃ v, dictGet k l = some v :=
  Option.isSome_iff_exists.mp (dictGet_isSome_of_mem_keys k l h)

/-- Keys survive the lookup-rebuild of `sort_by_key` verbatim. -/
theorem map_fst_filterMap_dictGet {V : Type} (ks : List String)
    (l : List (String × V)) (h : ∀ k ∈ ks, k ∈ l.map Prod.fst) :
    (ks.filterMap (fun k => (dictGet k l).map (fun v => (k, v)))).map
      Prod.fst = ks := by
  induction ks with
  | nil => rfl
  | cons k t ih =>
    obtain ⟨v, hv⟩ :=
      dictGet_eq_some_of_mem_keys k l (h k (List.mem_cons_self k t))
    simp [List.filterMap_cons, hv,
      ih (fun x hx => h x (List.mem_cons_of_mem _ hx))]

/-- The keys of `sort_by_key` are the sorted original keys. -/
theorem map_fst_sort_by_key {V : Type} (l : List (String × V)) :
    (sort_by_key l).map Prod.fst =
      List.insertionSort (fun a b => a ≤ b) (l.map Prod.fst) := by
  unfold sort_by_key
  apply map_fst_filterMap_dictGet
  intro k hk
  exact (List.perm_insertionSort (fun a b => a ≤ b) (l.map Prod.fst)).mem_iff.mp hk

/-- The keys of a dict union: the left keys followed by the fresh right
keys. -/
theorem map_fst_dictUnion {V : Type} (a b : List (String × V)) :
    (dictUnion a b).map Prod.fst =
      a.map Prod.fst ++
      (b.filter (fun kv => ¬ (a.map Prod.fst).contains kv.1)).map Prod.fst := by
  unfold dictUnion
  rw [List.map_append]
  congr 1
  rw [List.map_map]
  apply List.map_congr_left
  intro kv _
  simp only [Function.comp_apply]
  cases hx : dictGet kv.1 b <;> simp [hx]

/-- `find?` over a filtered list whose predicate holds wherever the search
predicate does. -/
theorem find?_filter_of_imp {α : Type} (l : List α) (p q : α → Bool)
    (himp : ∀ x, p x = true → q x = true) :
    (l.filter q).find? p = l.find? p := by
  induction l with
  | nil => rfl
  | cons a t ih =>
    by_cases hq : q a = true
    · rw [List.filter_cons_of_pos hq]
      by_cases hp : p a = true
      · rw [List.find?_cons_of_pos _ hp, List.find?_cons_of_pos _ hp]
      · rw [List.find?_cons_of_neg _ (by simp [hp]),
          List.find?_cons_of_neg _ (by simp [hp])]
        exact ih
    · have hp : ¬ p a = true := fun hx => hq (himp a hx)
      rw [List.filter_cons_of_neg (by simpa using hq),
        List.find?_cons_of_neg _ (by simp [hp])]
      exact ih

/-- Splitting a lookup over an appended dict. -/
theorem dictGet_append {V : Type} (k : String) (x y : List (String × V)) :
    dictGet k (x ++ y) = (dictGet k x).or (dictGet k y) := by
  unfold dictGet
  rw [List.find?_append]
  cases List.find? (fun kv => kv.1 == k) x <;> simp

/-- One unfolding step of dict lookup. -/
theorem dictGet_cons {V : Type} (k : String) (kv : String × V)
    (t : List (String × V)) :
    dictGet k (kv :: t) = if kv.1 = k then some kv.2 else dictGet k t := by
  unfold dictGet
  by_cases h : kv.1 = k
  · rw [List.find?_cons_of_pos _ (by simp [h]), if_pos h]
    rfl
  · rw [List.find?_cons_of_neg _ (by simp [h]), if_neg h]

/-- Lookup misses the overridden left segment of a dict union when the key
is not a left key. -/
theorem dictGet_map_override_none {V : Type} (k : String)
    (a b : List (String × V)) (ha : k ∉ a.map Prod.fst) :
    dictGet k (a.map (fun kv =>
      match dictGet kv.1 b with
      | some v => (kv.1, v)
      | none => kv)) = none := by
  induction a with
  | nil => rfl
  | cons kv t ih =>
    rw [List.map_cons, List.mem_cons, not_or] at ha
    obtain ⟨h1, h2⟩ := ha
    rw [List.map_cons, dictGet_cons]
    cases hx : dictGet kv.1 b with
    | some v =>
      rw [if_neg (fun h => h1 (by simpa using h.symm))]
      exact ih h2
    | none =>
      rw [if_neg (fun h => h1 (by simpa using h.symm))]
      exact ih h2

/-- Lookup in the overridden left segment of a dict union resolves to the
right dict's value when the key is a key of both. -/
theorem dictGet_map_override_some {V : Type} (k : String) (v : V)
    (a b : List (String × V)) (hv : dictGet k b = some v)
    (hmem : k ∈ a.map Prod.fst) :
    dictGet k (a.map (fun kv =>
      match dictGet kv.1 b with
      | some v => (kv.1, v)
      | none => kv)) = some v := by
  induction a with
  | nil => simp at hmem
  | cons kv t ih =>
    rw [List.map_cons, List.mem_cons] at hmem
    rw [List.map_cons, dictGet_cons]
    by_cases heq : kv.1 = k
    · subst heq
      rw [hv, if_pos rfl]
    · rw [if_neg ?_]
      · rcases hmem with hmem | hmem
        · exact absurd hmem.symm heq
        · exact ih hmem
      · cases hx : dictGet kv.1 b with
        | some w => exact fun h => heq (by simpa using h)
        | none => exact fun h => heq (by simpa using h)

/-- Lookup in the fresh-keys segment of a dict union agrees with lookup in
the right dict when the key is not a left key. -/
theorem dictGet_filter_fresh {V : Type} (k : String)
    (a b : List (String × V)) (ha : k ∉ a.map Prod.fst) :
    dictGet k (b.filter
      (fun kv => ¬ (a.map Prod.fst).contains kv.1)) = dictGet k b := by
  unfold dictGet
  rw [find?_filter_of_imp]
  intro kv hkv
  have hk : kv.1 = k := by simpa using hkv
  subst hk
  simp only [decide_eq_true_eq]
  intro hcon
  exact ha (by simpa using hcon)

/-- In a dict union, a key of the right dict resolves to the right dict's
value (static configuration wins on collision). -/
theorem dictGet_dictUnion_right {V : Type} (a b : List (String × V))
    (k : String) (hk : k ∈ b.map Prod.fst) :
    dictGet k (dictUnion a b) = dictGet k b := by
  obtain ⟨v, hv⟩ := dictGet_eq_some_of_mem_keys k b hk
  unfold dictUnion
  rw [dictGet_append]
  by_cases ha : k ∈ a.map Prod.fst
  · rw [dictGet_map_override_some k v a b hv ha, hv]
    rfl
  · rw [dictGet_map_override_none k a b ha, dictGet_filter_fresh k a b ha]
    simp

/-- C8 (amended): with a discovery query and static repositories configured,
the effective repository mapping contains every discovered and every static
repository key; the static configuration's value wins for any key present in
both; and the mapping iterates the discovered keys first, sorted, followed
by the static-only keys in configuration order — the merged mapping as a
whole is not re-sorted. -/
theorem c8_repo_discovery_merge {V : Type} (d s : List (String × V)) :
    (∀ k, k ∈ (instance_repo_specs d s).map Prod.fst ↔
      k ∈ d.map Prod.fst ∨ k ∈ s.map Prod.fst) ∧
    (∀ k, k ∈ s.map Prod.fst →
      dictGet k (instance_repo_specs d s) = dictGet k s) ∧
    ((instance_repo_specs d s).map Prod.fst =
      List.insertionSort (fun a b => a ≤ b) (d.map Prod.fst) ++
      (s.filter (fun kv =>
        ¬ ((sort_by_key d).map Prod.fst).contains kv.1)).map Prod.fst) ∧
    (List.insertionSort (fun a b => a ≤ b) (d.map Prod.fst)).Pairwise
      (fun a b => a ≤ b) := by
  refine ⟨?_, ?_, ?_, ?_⟩
  · intro k
    unfold instance_repo_specs
    rw [map_fst_dictUnion, List.mem_append]
    constructor
    · rintro (h | h)
      · left
        rw [map_fst_sort_by_key] at h
        exact (List.perm_insertionSort _ _).mem_iff.mp h
      · right
        obtain ⟨kv, hkv, rfl⟩ := List.mem_map.mp h
        exact List.mem_map.mpr ⟨kv, (List.mem_filter.mp hkv).1, rfl⟩
    · rintro (h | h)
      · left
        rw [map_fst_sort_by_key]
        exact (List.perm_insertionSort _ _).mem_iff.mpr h
      · by_cases hd : k ∈ (sort_by_key d).map Prod.fst
        · left
          exact hd
        · right
          obtain ⟨kv, hkv, rfl⟩ := List.mem_map.mp h
          refine List.mem_map.mpr ⟨kv, List.mem_filter.mpr ⟨hkv, ?_⟩, rfl⟩
          simp only [decide_eq_true_eq]
          intro hcon
          exact hd (by simpa using hcon)
  · intro k hk
    exact dictGet_dictUnion_right _ s k hk
  · unfold instance_repo_specs
    rw [map_fst_dictUnion, map_fst_sort_by_key]
  · exact List.sorted_insertionSort _ _

/-- Witness for C8 at a concrete discovered/static pair with a key
collision: the static value wins. -/
theorem c8_repo_discovery_merge_witness :
    dictGet "b" (instance_repo_specs [("b", 1)] [("a", 2), ("b", 3)]) =
      dictGet "b" [("a", 2), ("b", 3)] :=
  (c8_repo_discovery_merge [("b", 1)] [("a", 2), ("b", 3)]).2.1 "b" (by decide)

/-- Counterexample to C8 as stated: a static-only key that sorts before a
discovered key is appended after it, so the merged repository mapping does
not iterate sorted by key. -/
theorem c8_merged_repos_not_sorted_counterexample :
    (instance_repo_specs [("b", 1)] [("a", 2)]).map Prod.fst = ["b", "a"] ∧
    ¬ List.Pairwise (fun x y : String => x ≤ y)
        ((instance_repo_specs [("b", 1)] [("a", 2)]).map Prod.fst) := by
  refine ⟨rfl, ?_⟩
  intro h
  rw [show (instance_repo_specs [("b", 1)] [("a", 2)]).map Prod.fst =
    ["b", "a"] from rfl] at h
  have h1 := (List.pairwise_cons.mp h).1 "a" (by simp)
  rw [String.le_iff_toList_le] at h1
  revert h1
  decide

/-- Distinct full URLs leave at most one candidate per JIRA issue. -/
theorem urlMatches_at_most_one (j : JiraIssue) (fs : List Issue)
    (hfs : fs.Pairwise (fun a b => a.full_url ≠ b.full_url)) :
    fs.Pairwise (fun a b =>
      ¬ (urlMatches j a = true ∧ urlMatches j b = true)) := by
  refine hfs.imp ?_
  intro a b hne ⟨ha, hb⟩
  simp only [urlMatches, get_full_url_from_jira_issue, decide_eq_true_eq] at ha hb
  rw [ha] at hb
  exact hne (Option.some.injEq _ _ ▸ hb)

/-- In a list where no two (positionally distinct) elements both satisfy
`p`, any two members satisfying `p` are equal. -/
theorem mem_unique_of_pairwise_incompat {α : Type} {p : α → Bool}
    {l : List α}
    (h : l.Pairwise (fun a b => ¬ (p a = true ∧ p b = true))) {a b : α}
    (ha : a ∈ l) (hb : b ∈ l) (hpa : p a = true) (hpb : p b = true) :
    a = b := by
  induction l with
  | nil => cases ha
  | cons x t ih =>
    obtain ⟨hx, ht⟩ := List.pairwise_cons.mp h
    rcases List.mem_cons.mp ha with rfl | ha2 <;>
      rcases List.mem_cons.mp hb with rfl | hb2
    · rfl
    · exact absurd ⟨hpa, hpb⟩ (hx b hb2)
    · exact absurd ⟨hpb, hpa⟩ (hx a ha2)
    · exact ih ht ha2 hb2

/-- With at most one satisfier, `find?` is characterized by membership. -/
theorem find?_eq_some_iff_of_unique {α : Type} {p : α → Bool} {l : List α}
    (h : l.Pairwise (fun a b => ¬ (p a = true ∧ p b = true))) (a : α) :
    l.find? p = some a ↔ a ∈ l ∧ p a = true := by
  constructor
  · intro hf
    exact ⟨List.mem_of_find?_eq_some hf, List.find?_some hf⟩
  · rintro ⟨ha, hpa⟩
    cases hf : l.find? p with
    | none => exact absurd hpa (by simpa using List.find?_eq_none.mp hf a ha)
    | some b =>
      have hb := List.mem_of_find?_eq_some hf
      have hpb := List.find?_some hf
      rw [mem_unique_of_pairwise_incompat h hb ha hpb hpa]

/-- With at most one satisfier, `find?` is permutation-invariant. -/
theorem find?_perm_of_unique {α : Type} {p : α → Bool} {l₁ l₂ : List α}
    (hperm : l₁.Perm l₂)
    (h : l₁.Pairwise (fun a b => ¬ (p a = true ∧ p b = true))) :
    l₁.find? p = l₂.find? p := by
  have h₂ : l₂.Pairwise (fun a b => ¬ (p a = true ∧ p b = true)) :=
    (hperm.pairwise_iff (fun hab hcon => hab ⟨hcon.2, hcon.1⟩)).mp h
  cases hf : l₁.find? p with
  | none =>
    symm
    apply List.find?_eq_none.mpr
    intro a ha hpa
    exact absurd hpa
      (by simpa using List.find?_eq_none.mp hf a (hperm.mem_iff.mpr ha))
  | some a =>
    symm
    exact (find?_eq_some_iff_of_unique h₂ a).mpr
      ⟨hperm.mem_iff.mp (List.mem_of_find?_eq_some hf), List.find?_some hf⟩

/-- Erasing the first satisfier of a predicate with at most one satisfier is
filtering it out. -/
theorem eraseP_eq_filter_of_unique {α : Type} {p : α → Bool} {l : List α}
    (h : l.Pairwise (fun a b => ¬ (p a = true ∧ p b = true))) :
    l.eraseP p = l.filter (fun a => !p a) := by
  induction l with
  | nil => rfl
  | cons x t ih =>
    obtain ⟨hx, ht⟩ := List.pairwise_cons.mp h
    by_cases hp : p x = true
    · rw [List.eraseP_cons_of_pos hp, List.filter_cons_of_neg (by simp [hp])]
      symm
      apply List.filter_eq_self.mpr
      intro a ha
      simp only [Bool.not_eq_true']
      by_contra hcon
      exact hx a ha ⟨hp, by simpa using hcon⟩
    · rw [List.eraseP_cons_of_neg (by simpa using hp),
        List.filter_cons_of_pos (by simpa using hp), ih ht]

/-- Pointwise-equal selectors filter-map equally. -/
theorem filterMap_congr_mem {α β : Type} {f g : α → Option β} {l : List α}
    (h : ∀ a ∈ l, f a = g a) : l.filterMap f = l.filterMap g := by
  induction l with
  | nil => rfl
  | cons a t ih =>
    rw [List.filterMap_cons, List.filterMap_cons,
      h a (List.mem_cons_self a t),
      ih (fun x hx => h x (List.mem_cons_of_mem a hx))]

/-- Step of the matching loop when the head JIRA issue finds a match. -/
theorem match_go_cons_some (j : JiraIssue) (rest : List JiraIssue)
    (m : List (JiraIssue × Issue)) (u : List JiraIssue) (pool : List Issue)
    (f : Issue) (hfind : pool.find? (fun f => urlMatches j f) = some f) :
    match_go (j :: rest) m u pool =
      match_go rest (m ++ [(j, f)]) u
        (pool.eraseP (fun f => urlMatches j f)) := by
  conv_lhs => unfold match_go
  rw [hfind]

/-- Step of the matching loop when the head JIRA issue finds no match. -/
theorem match_go_cons_none (j : JiraIssue) (rest : List JiraIssue)
    (m : List (JiraIssue × Issue)) (u : List JiraIssue) (pool : List Issue)
    (hfind : pool.find? (fun f => urlMatches j f) = none) :
    match_go (j :: rest) m u pool = match_go rest m (u ++ [j]) pool := by
  conv_lhs => unfold match_go
  rw [hfind]

/-- Extensional description of the matching loop under distinct URLs: the
matched pairs are the JIRA issues paired with their (unique) URL match in
the pool, the unmatched JIRA issues are those without a match, and the
remaining pool are the forge issues matching no JIRA issue. -/
theorem match_go_characterization (js : List JiraIssue) :
    ∀ (m : List (JiraIssue × Issue)) (u : List JiraIssue) (pool : List Issue),
      pool.Pairwise (fun a b => a.full_url ≠ b.full_url) →
      js.Pairwise (fun a b => a.externalUrl ≠ b.externalUrl) →
      match_go js m u pool =
        (m ++ js.filterMap (fun j =>
            (pool.find? (fun f => urlMatches j f)).map (fun f => (j, f))),
         u ++ js.filter (fun j =>
            (pool.find? (fun f => urlMatches j f)).isNone),
         pool.filter (fun f => !(js.any (fun j => urlMatches j f)))) := by
  induction js with
  | nil =>
    intro m u pool hpool hjs
    simp [match_go]
  | cons j rest ih =>
    intro m u pool hpool hjs
    obtain ⟨hjr, hrest⟩ := List.pairwise_cons.mp hjs
    have huniq := urlMatches_at_most_one j pool hpool
    cases hfind : pool.find? (fun f => urlMatches j f) with
    | some f =>
      rw [match_go_cons_some j rest m u pool f hfind,
        eraseP_eq_filter_of_unique huniq]
      have hpool2 : (pool.filter (fun a => !(urlMatches j a))).Pairwise
          (fun a b => a.full_url ≠ b.full_url) :=
        hpool.sublist (List.filter_sublist pool)
      rw [ih _ _ _ hpool2 hrest]
      have hconv : ∀ j' ∈ rest,
          (pool.filter (fun a => !(urlMatches j a))).find?
            (fun f => urlMatches j' f) =
          pool.find? (fun f => urlMatches j' f) := by
        intro j' hj'
        apply find?_filter_of_imp
        intro x hx
        simp only [Bool.not_eq_true']
        by_contra hcon
        have hjx : urlMatches j x = true := by simpa using hcon
        have h1 : j'.externalUrl = some x.full_url := by
          simpa [urlMatches, get_full_url_from_jira_issue] using hx
        have h2 : j.externalUrl = some x.full_url := by
          simpa [urlMatches, get_full_url_from_jira_issue] using hjx
        exact hjr j' hj' (h2.trans h1.symm)
      simp only [Prod.mk.injEq]
      refine ⟨?_, ?_, ?_⟩
      · rw [List.filterMap_cons, hfind]
        simp only [Option.map_some']
        rw [filterMap_congr_mem (fun j' hj' => by rw [hconv j' hj'])]
        rw [List.append_assoc, List.singleton_append]
      · rw [List.filter_cons_of_neg (by simp [hfind])]
        rw [List.filter_congr (fun j' hj' => by rw [hconv j' hj'])]
      · rw [List.filter_filter]
        apply List.filter_congr
        intro a _
        cases h1 : urlMatches j a <;>
          cases h2 : rest.any (fun j' => urlMatches j' a) <;>
          simp [List.any_cons, h1, h2]
    | none =>
      rw [match_go_cons_none j rest m u pool hfind, ih _ _ _ hpool hrest]
      simp only [Prod.mk.injEq]
      refine ⟨?_, ?_, ?_⟩
      · rw [List.filterMap_cons, hfind]
        simp only [Option.map_none']
      · rw [List.filter_cons_of_pos (by simp [hfind])]
        rw [List.append_assoc, List.singleton_append]
      · apply List.filter_congr
        intro a ha
        have hna : urlMatches j a = false := by
          simpa using List.find?_eq_none.mp hfind a ha
        simp [List.any_cons, hna]

/-- C7: matching determinism: over JIRA issues with pairwise distinct
external-URL values and forge issues with pairwise distinct full URLs,
reordering either input permutes — but does not change as sets — the
matched pairs, the unmatched JIRA issues and the unmatched forge issues of
`match_jira_forge_issues`. -/
theorem c7_matching_determinism (js₁ js₂ : List JiraIssue)
    (fs₁ fs₂ : List Issue) (hj : js₁.Perm js₂) (hf : fs₁.Perm fs₂)
    (hjd : js₁.Pairwise (fun a b => a.externalUrl ≠ b.externalUrl))
    (hfd : fs₁.Pairwise (fun a b => a.full_url ≠ b.full_url)) :
    (match_jira_forge_issues js₁ fs₁).1.Perm
      (match_jira_forge_issues js₂ fs₂).1 ∧
    (match_jira_forge_issues js₁ fs₁).2.1.Perm
      (match_jira_forge_issues js₂ fs₂).2.1 ∧
    (match_jira_forge_issues js₁ fs₁).2.2.Perm
      (match_jira_forge_issues js₂ fs₂).2.2 := by
  have hjd₂ : js₂.Pairwise (fun a b => a.externalUrl ≠ b.externalUrl) :=
    (hj.pairwise_iff (fun hab => fun e => hab e.symm)).mp hjd
  have hfd₂ : fs₂.Pairwise (fun a b => a.full_url ≠ b.full_url) :=
    (hf.pairwise_iff (fun hab => fun e => hab e.symm)).mp hfd
  have hfind_eq : ∀ j : JiraIssue,
      fs₁.find? (fun f => urlMatches j f) =
        fs₂.find? (fun f => urlMatches j f) :=
    fun j => find?_perm_of_unique hf (urlMatches_at_most_one j fs₁ hfd)
  have hany_eq : ∀ f : Issue,
      js₁.any (fun j => urlMatches j f) =
        js₂.any (fun j => urlMatches j f) := by
    intro f
    cases h1 : js₂.any (fun j => urlMatches j f) with
    | true =>
      rw [List.any_eq_true] at h1 ⊢
      obtain ⟨x, hx, hpx⟩ := h1
      exact ⟨x, hj.mem_iff.mpr hx, hpx⟩
    | false =>
      rw [List.any_eq_false] at h1 ⊢
      intro x hx
      exact h1 x (hj.mem_iff.mp hx)
  unfold match_jira_forge_issues
  rw [match_go_characterization js₁ [] [] fs₁ hfd hjd,
    match_go_characterization js₂ [] [] fs₂ hfd₂ hjd₂]
  simp only [List.nil_append]
  refine ⟨?_, ?_, ?_⟩
  · rw [show (fun j : JiraIssue =>
        (fs₁.find? (fun f => urlMatches j f)).map (fun f => (j, f))) =
      (fun j : JiraIssue =>
        (fs₂.find? (fun f => urlMatches j f)).map (fun f => (j, f))) from
      funext (fun j => by rw [hfind_eq j])]
    exact hj.filterMap _
  · rw [show (fun j : JiraIssue =>
        (fs₁.find? (fun f => urlMatches j f)).isNone) =
      (fun j : JiraIssue =>
        (fs₂.find? (fun f => urlMatches j f)).isNone) from
      funext (fun j => by rw [hfind_eq j])]
    exact hj.filter _
  · rw [show (fun f : Issue => !(js₁.any (fun j => urlMatches j f))) =
      (fun f : Issue => !(js₂.any (fun j => urlMatches j f))) from
      funext (fun f => by rw [hany_eq f])]
    exact hf.filter _

/-- Witness for C7 on concrete two-element inputs in swapped orders. -/
theorem c7_matching_determinism_witness :
    (match_jira_forge_issues
      [{ key := "J-A", statusName := "NEW", labels := [], assignee := none,
         externalUrl := some "uA", storyPoints := 0 },
       { key := "J-B", statusName := "NEW", labels := [], assignee := none,
         externalUrl := some "uB", storyPoints := 0 }]
      [{ repository := { instanceName := "i", repoName := "r", usermap := [] },
         full_url := "uA", title := "", content := "", assignee := none,
         status := IssueStatus.new, story_points := 0 },
       { repository := { instanceName := "i", repoName := "r", usermap := [] },
         full_url := "uC", title := "", content := "", assignee := none,
         status := IssueStatus.new, story_points := 0 }]).1.Perm
    (match_jira_forge_issues
      [{ key := "J-B", statusName := "NEW", labels := [], assignee := none,
         externalUrl := some "uB", storyPoints := 0 },
       { key := "J-A", statusName := "NEW", labels := [], assignee := none,
         externalUrl := some "uA", storyPoints := 0 }]
      [{ repository := { instanceName := "i", repoName := "r", usermap := [] },
         full_url := "uC", title := "", content := "", assignee := none,
         status := IssueStatus.new, story_points := 0 },
       { repository := { instanceName := "i", repoName := "r", usermap := [] },
         full_url := "uA", title := "", content := "", assignee := none,
         status := IssueStatus.new, story_points := 0 }]).1 :=
  (c7_matching_determinism
    [{ key := "J-A", statusName := "NEW", labels := [], assignee := none,
       externalUrl := some "uA", storyPoints := 0 },
     { key := "J-B", statusName := "NEW", labels := [], assignee := none,
       externalUrl := some "uB", storyPoints := 0 }]
    [{ key := "J-B", statusName := "NEW", labels := [], assignee := none,
       externalUrl := some "uB", storyPoints := 0 },
     { key := "J-A", statusName := "NEW", labels := [], assignee := none,
       externalUrl := some "uA", storyPoints := 0 }]
    [{ repository := { instanceName := "i", repoName := "r", usermap := [] },
       full_url := "uA", title := "", content := "", assignee := none,
       status := IssueStatus.new, story_points := 0 },
     { repository := { instanceName := "i", repoName := "r", usermap := [] },
       full_url := "uC", title := "", content := "", assignee := none,
       status := IssueStatus.new, story_points := 0 }]
    [{ repository := { instanceName := "i", repoName := "r", usermap := [] },
       full_url := "uC", title := "", content := "", assignee := none,
       status := IssueStatus.new, story_points := 0 },
     { repository := { instanceName := "i", repoName := "r", usermap := [] },
       full_url := "uA", title := "", content := "", assignee := none,
       status := IssueStatus.new, story_points := 0 }]
    (List.Perm.swap _ _ _) (List.Perm.swap _ _ _)
    (by decide) (by decide)).1

end JiraSync
